import Mathlib

/-!
Verification of the filtering/aggregation engine and the regression-based
prediction component of the KFC sales dashboard (`app1.py`).

The dashboard works on a pandas DataFrame loaded from
`KFC_Past_Sales_Dataset.csv` with columns `Country, Year, Month, Branch_ID,
Sales, Customers, Marketing_Spend`.  We embed a row as a `Record` with exact
(rational / integer) values, the sidebar widget state as a `Criteria`, and
each pandas operation used by the script as a Lean function on lists of
records, following the pandas semantics of the exact calls made in the
source (boolean-mask filtering, `sum`, `mean`, `nunique`, `groupby(...).sum`,
`sort_values`, `head`, element-wise division, scikit-learn's
`LinearRegression.fit/predict`).
-/

namespace KFC

/-- One row of the source table (`app1.py` reads it at line 29; its columns
are used throughout: `Country`, `Year`, `Month`, `Branch_ID`, `Sales`,
`Customers`, `Marketing_Spend`). -/
structure Record where
  country : String
  year : ℤ
  month : String
  branch : ℕ
  sales : ℚ
  customers : ℕ
  spend : ℚ
deriving DecidableEq

/-- The sidebar filter state (`app1.py` lines 40-81): a multiselect of
countries, an inclusive year range, a multiselect of months, an inclusive
marketing-spend range and an inclusive customer-count range. -/
structure Criteria where
  countries : List String
  yearMin : ℤ
  yearMax : ℤ
  months : List String
  spendMin : ℚ
  spendMax : ℚ
  custMin : ℕ
  custMax : ℕ
deriving DecidableEq

/-- The conjunction of the five mask terms of `app1.py` lines 84-90:
`isin(country_filter) & Year.between(lo,hi) & Month.isin(month_filter) &
Marketing_Spend.between(lo,hi) & Customers.between(lo,hi)`; pandas
`between` is inclusive on both ends. -/
def rowMatch (c : Criteria) (r : Record) : Bool :=
  decide (r.country ∈ c.countries) &&
  (decide (c.yearMin ≤ r.year) && decide (r.year ≤ c.yearMax)) &&
  decide (r.month ∈ c.months) &&
  (decide (c.spendMin ≤ r.spend) && decide (r.spend ≤ c.spendMax)) &&
  (decide (c.custMin ≤ r.customers) && decide (r.customers ≤ c.custMax))

/-- `filtered_df = df[mask]` (`app1.py` lines 84-90): boolean-mask indexing
keeps exactly the rows whose mask entry is `True`, in their original order,
in a new frame.  There is no validation of the criteria anywhere in the
script, so the operation is total: inverted bounds simply make the mask
all-`False`. -/
def applyFilter (ds : List Record) (c : Criteria) : List Record :=
  ds.filter (rowMatch c)

/-- `foldl min` is bounded by its accumulator. -/
lemma foldl_min_le_self {α : Type} [LinearOrder α] (t : List α) (a : α) :
    t.foldl min a ≤ a := by
  induction t generalizing a with
  | nil => simp
  | cons b t ih => exact le_trans (ih (min a b)) (min_le_left a b)

/-- `foldl min` is bounded by every element of the list. -/
lemma foldl_min_le_mem {α : Type} [LinearOrder α] (t : List α) (a : α) :
    ∀ x ∈ t, t.foldl min a ≤ x := by
  induction t generalizing a with
  | nil => simp
  | cons b t ih =>
    intro x hx
    rcases List.mem_cons.mp hx with rfl | hx
    · exact le_trans (foldl_min_le_self t (min a x)) (min_le_right a x)
    · exact ih (min a b) x hx

/-- `foldl max` dominates its accumulator. -/
lemma le_foldl_max_self {α : Type} [LinearOrder α] (t : List α) (a : α) :
    a ≤ t.foldl max a := by
  induction t generalizing a with
  | nil => simp
  | cons b t ih => exact le_trans (le_max_left a b) (ih (max a b))

/-- `foldl max` dominates every element of the list. -/
lemma mem_le_foldl_max {α : Type} [LinearOrder α] (t : List α) (a : α) :
    ∀ x ∈ t, x ≤ t.foldl max a := by
  induction t generalizing a with
  | nil => simp
  | cons b t ih =>
    intro x hx
    rcases List.mem_cons.mp hx with rfl | hx
    · exact le_trans (le_max_right a x) (le_foldl_max_self t (max a x))
    · exact ih (max a b) x hx

/-- `df[col].min()` as the script uses it (`app1.py` lines 49, 64, 75): the
minimum of the observed column values.  The script only evaluates it on the
loaded, nonempty dataset; the `d` argument is a formal placeholder for the
empty case, which the script never reaches. -/
def obsMin {α : Type} [LinearOrder α] (d : α) : List α → α
  | [] => d
  | x :: t => t.foldl min x

/-- `df[col].max()` as the script uses it (`app1.py` lines 50, 65, 76). -/
def obsMax {α : Type} [LinearOrder α] (d : α) : List α → α
  | [] => d
  | x :: t => t.foldl max x

/-- The observed minimum is a lower bound for every column value. -/
lemma obsMin_le {α : Type} [LinearOrder α] (d : α) (l : List α) (x : α)
    (hx : x ∈ l) : obsMin d l ≤ x := by
  cases l with
  | nil => cases hx
  | cons a t =>
    rcases List.mem_cons.mp hx with rfl | hx
    · exact foldl_min_le_self t x
    · exact foldl_min_le_mem t a x hx

/-- The observed maximum is an upper bound for every column value. -/
lemma le_obsMax {α : Type} [LinearOrder α] (d : α) (l : List α) (x : α)
    (hx : x ∈ l) : x ≤ obsMax d l := by
  cases l with
  | nil => cases hx
  | cons a t =>
    rcases List.mem_cons.mp hx with rfl | hx
    · exact le_foldl_max_self t x
    · exact mem_le_foldl_max t a x hx

/-- The sidebar defaults of `app1.py` lines 40-81: all countries selected
(`default=sorted(df["Country"].unique())`), the year / marketing-spend /
customer sliders at their full span `(col.min(), col.max())`, and all
months selected. -/
def fullCriteria (ds : List Record) : Criteria where
  countries := (ds.map (·.country)).dedup
  yearMin := obsMin 0 (ds.map (·.year))
  yearMax := obsMax 0 (ds.map (·.year))
  months := (ds.map (·.month)).dedup
  spendMin := obsMin 0 (ds.map (·.spend))
  spendMax := obsMax 0 (ds.map (·.spend))
  custMin := obsMin 0 (ds.map (·.customers))
  custMax := obsMax 0 (ds.map (·.customers))

/-- C1: a record is in the result of applying the filter iff it is a record
of the dataset whose country is among the selected countries, whose year
lies inclusively in the year range, whose month is among the selected
months, whose marketing spend lies inclusively in the spend range and whose
customer count lies inclusively in the customer range; hence every record
of the returned view satisfies all predicates and no excluded record does. -/
theorem filter_membership_iff (ds : List Record) (c : Criteria) (r : Record) :
    r ∈ applyFilter ds c ↔
      r ∈ ds ∧
      (r.country ∈ c.countries ∧
       (c.yearMin ≤ r.year ∧ r.year ≤ c.yearMax) ∧
       r.month ∈ c.months ∧
       (c.spendMin ≤ r.spend ∧ r.spend ≤ c.spendMax) ∧
       (c.custMin ≤ r.customers ∧ r.customers ≤ c.custMax)) := by
  simp [applyFilter, rowMatch, List.mem_filter, and_assoc]

/-- C2: applying filter criteria equal to the full domain (all countries,
all months, each slider spanning the observed minimum to maximum of its
column) returns the entire dataset. -/
theorem filter_full_domain_identity (ds : List Record) :
    applyFilter ds (fullCriteria ds) = ds := by
  unfold applyFilter
  rw [List.filter_eq_self]
  intro r hr
  simp only [rowMatch, fullCriteria, Bool.and_eq_true, decide_eq_true_eq]
  refine ⟨⟨⟨⟨?_, ?_, ?_⟩, ?_⟩, ?_, ?_⟩, ?_, ?_⟩
  · exact List.mem_dedup.mpr (List.mem_map.mpr ⟨r, hr, rfl⟩)
  · exact obsMin_le 0 _ _ (List.mem_map.mpr ⟨r, hr, rfl⟩)
  · exact le_obsMax 0 _ _ (List.mem_map.mpr ⟨r, hr, rfl⟩)
  · exact List.mem_dedup.mpr (List.mem_map.mpr ⟨r, hr, rfl⟩)
  · exact obsMin_le 0 _ _ (List.mem_map.mpr ⟨r, hr, rfl⟩)
  · exact le_obsMax 0 _ _ (List.mem_map.mpr ⟨r, hr, rfl⟩)
  · exact obsMin_le 0 _ _ (List.mem_map.mpr ⟨r, hr, rfl⟩)
  · exact le_obsMax 0 _ _ (List.mem_map.mpr ⟨r, hr, rfl⟩)

/-- A sample record used in concrete counterexamples and witnesses. -/
def rUS : Record :=
  { country := "US", year := 2020, month := "Jan", branch := 1,
    sales := 1000, customers := 100, spend := 500 }

/-- Criteria whose year range is inverted (`year_min = 2025 > 2018 =
year_max`), everything else permissive. -/
def invertedYearCriteria : Criteria :=
  { countries := ["US"], yearMin := 2025, yearMax := 2018,
    months := ["Jan"], spendMin := 0, spendMax := 10000,
    custMin := 0, custMax := 10000 }

/-- C3 counterexample: on a one-record dataset, applying criteria with
`year_min > year_max` returns an empty view; the script has no validation
and no `InvalidCriteria` error path (lines 84-90 are a total boolean-mask
filter), contradicting the claim that the call fails rather than returning
an empty view. -/
theorem inverted_bounds_empty_view :
    applyFilter [rUS] invertedYearCriteria = [] := by decide

/-- C3 amended: when any range bound is inverted (min greater than max),
applying the filter silently returns an empty view; no error is raised. -/
theorem inverted_bounds_yield_empty (ds : List Record) (c : Criteria)
    (h : c.yearMax < c.yearMin ∨ c.spendMax < c.spendMin ∨
         c.custMax < c.custMin) :
    applyFilter ds c = [] := by
  rw [applyFilter, List.filter_eq_nil_iff]
  intro r hr
  simp only [rowMatch, Bool.and_eq_true, decide_eq_true_eq]
  rintro ⟨⟨⟨⟨-, hy1, hy2⟩, -⟩, hs1, hs2⟩, hc1, hc2⟩
  rcases h with h | h | h
  · exact absurd (le_trans hy1 hy2) (not_le.mpr h)
  · exact absurd (le_trans hs1 hs2) (not_le.mpr h)
  · exact absurd (le_trans hc1 hc2) (not_le.mpr h)

/-- A second sample record, distinct from `rUS`, for witness instances. -/
def rFR : Record :=
  { country := "FR", year := 2020, month := "Feb", branch := 2,
    sales := 1800, customers := 150, spend := 600 }

/-- Criteria with an inverted customer range. -/
def invertedCustCriteria : Criteria :=
  { countries := ["FR"], yearMin := 2018, yearMax := 2025,
    months := ["Feb"], spendMin := 0, spendMax := 10000,
    custMin := 500, custMax := 10 }

/-- Witness for the amended C3 at a concrete inverted customer range. -/
theorem inverted_bounds_yield_empty_witness :
    applyFilter [rFR] invertedCustCriteria = [] :=
  inverted_bounds_yield_empty [rFR] invertedCustCriteria
    (Or.inr (Or.inr (by decide)))

/-- The four KPI values computed at `app1.py` lines 99-102: `Sales.sum()`,
`Customers.sum()`, `Marketing_Spend.mean()` and `Branch_ID.nunique()`.
pandas returns `0` for the sum of an empty column, `NaN` for its mean and
`0` for `nunique`; the `NaN` mean is modelled as `none`. -/
structure KPIs where
  totalSales : ℚ
  totalCustomers : ℕ
  meanSpend : Option ℚ
  branchCount : ℕ
deriving DecidableEq

/-- The KPI block of `app1.py` lines 99-102 evaluated on the filtered view.
The script feeds each value straight into a metric format string; in
particular a `NaN` mean (empty view) is rendered as `$nan` with no
flagging or empty-view branch anywhere in the script. -/
def summarize (v : List Record) : KPIs where
  totalSales := (v.map (·.sales)).sum
  totalCustomers := (v.map (·.customers)).sum
  meanSpend :=
    if v.isEmpty then none else some ((v.map (·.spend)).sum / (v.length : ℚ))
  branchCount := (v.map (·.branch)).dedup.length

/-- Criteria selecting only the country `"DE"`, absent from the sample
dataset; all other bounds permissive. -/
def absentCountryCriteria : Criteria :=
  { countries := ["DE"], yearMin := 2018, yearMax := 2025,
    months := ["Jan"], spendMin := 0, spendMax := 10000,
    custMin := 0, custMax := 10000 }

/-- C4 counterexample: filtering a one-record dataset to an absent country
yields an empty view, and the summarized mean marketing spend is the
`NaN` of `pandas.mean` over an empty column (modelled `none`), not zero:
lines 99-102 contain no empty-view branch, so the `NaN` reaches the
metric string unflagged, contradicting the claim that the mean is
reported as zero or as an explicit no-data value. -/
theorem empty_view_mean_is_nan :
    applyFilter [rUS] absentCountryCriteria = [] ∧
    (summarize (applyFilter [rUS] absentCountryCriteria)).meanSpend = none ∧
    (summarize (applyFilter [rUS] absentCountryCriteria)).meanSpend ≠ some 0 := by
  decide

/-- C4 amended: a criteria excluding every record yields an empty view
without error, and Summarize returns total sales 0, total customers 0,
distinct branch count 0, and a mean marketing spend equal to pandas'
`NaN` for an empty column (modelled `none`), which the script passes to
the display without flagging. -/
theorem summarize_empty_view (ds : List Record) (c : Criteria)
    (h : applyFilter ds c = []) :
    summarize (applyFilter ds c) =
      { totalSales := 0, totalCustomers := 0, meanSpend := none,
        branchCount := 0 } := by
  rw [h]; rfl

/-- Criteria selecting only the country `"GB"`, absent from the sample
dataset. -/
def absentCountryCriteriaGB : Criteria :=
  { countries := ["GB"], yearMin := 2018, yearMax := 2025,
    months := ["Feb"], spendMin := 0, spendMax := 10000,
    custMin := 0, custMax := 10000 }

/-- Witness for the amended C4 on a concrete empty view. -/
theorem summarize_empty_view_witness :
    applyFilter [rFR] absentCountryCriteriaGB = [] ∧
    summarize (applyFilter [rFR] absentCountryCriteriaGB) =
      { totalSales := 0, totalCustomers := 0, meanSpend := none,
        branchCount := 0 } :=
  ⟨by decide, summarize_empty_view [rFR] absentCountryCriteriaGB (by decide)⟩

/-- The result of a pandas element-wise float division on exact inputs:
`x / 0` is `+inf` (resp. `-inf`) for positive (resp. negative) `x`, `0 / 0`
is `NaN`, and otherwise the quotient.  The quotient is kept exact (as a
rational); float rounding affects no verified property. -/
inductive PdVal where
  | nan : PdVal
  | posInf : PdVal
  | negInf : PdVal
  | num : ℚ → PdVal
deriving DecidableEq

/-- Element-wise division with IEEE-754 zero-divisor semantics, as pandas
performs it at `app1.py` lines 178-180. -/
def pdDiv (a b : ℚ) : PdVal :=
  if b = 0 then
    if a = 0 then PdVal.nan else if 0 < a then PdVal.posInf else PdVal.negInf
  else PdVal.num (a / b)

/-- The derived column of `app1.py` lines 178-180:
`filtered_df["Sales"] / filtered_df["Customers"]`, per row.  The script
performs the division unconditionally: there is no guard on
`Customers = 0` and no per-record error flag. -/
def salesPerCustomer (r : Record) : PdVal :=
  pdDiv r.sales (r.customers : ℚ)

/-- The filtered view together with its derived `Sales_per_Customer`
column (`app1.py` lines 178-180). -/
def addDerived (v : List Record) : List (Record × PdVal) :=
  v.map (fun r => (r, salesPerCustomer r))

/-- A record violating the `customers > 0` invariant. -/
def rZeroCust : Record :=
  { country := "US", year := 2020, month := "Jan", branch := 7,
    sales := 500, customers := 0, spend := 100 }

/-- C5 counterexample: on a record with `customers = 0` and positive sales
the unguarded division of lines 178-180 silently produces the infinite
value `+inf`, contradicting the claim that the computation emits a
per-record flagged error or marks the value as missing instead. -/
theorem zero_customers_silent_inf :
    salesPerCustomer rZeroCust = PdVal.posInf := by decide

/-- C5 amended: for every row with `customers > 0` the derived column is
exactly `sales / customers`; for a row with `customers = 0` the unguarded
division yields `+inf` / `-inf` (or `NaN` when sales are also zero) with
no per-record flag. -/
theorem sales_per_customer_of_pos (r : Record) (h : 0 < r.customers) :
    salesPerCustomer r = PdVal.num (r.sales / (r.customers : ℚ)) := by
  have hne : (r.customers : ℚ) ≠ 0 := by
    exact_mod_cast Nat.pos_iff_ne_zero.mp h
  simp [salesPerCustomer, pdDiv, hne]

/-- Witness for the amended C5 on a concrete positive-customer record. -/
theorem sales_per_customer_of_pos_witness :
    0 < rUS.customers ∧
    salesPerCustomer rUS = PdVal.num (rUS.sales / (rUS.customers : ℚ)) :=
  ⟨by decide, sales_per_customer_of_pos rUS (by decide)⟩

/-- The index of a pandas `groupby(col)` with its default `sort=True`
(`app1.py` lines 119, 141, 201): the distinct values of the column in
ascending order. -/
def sortedKeys {α : Type} [LinearOrder α] (l : List α) : List α :=
  List.insertionSort (fun a b => a ≤ b) l.dedup

/-- Grouping keys are strictly ascending: sorted and without duplicates. -/
lemma sortedKeys_pairwise_lt {α : Type} [LinearOrder α] (l : List α) :
    (sortedKeys l).Pairwise (fun a b => a < b) := by
  have hs : (sortedKeys l).Pairwise (fun a b => a ≤ b) :=
    List.sorted_insertionSort _ _
  have hn : (sortedKeys l).Nodup :=
    (List.perm_insertionSort _ _).nodup_iff.mpr l.nodup_dedup
  exact (hs.and hn).imp (fun h => lt_of_le_of_ne h.1 h.2)

/-- Membership in the grouping keys is membership in the column. -/
lemma mem_sortedKeys {α : Type} [LinearOrder α] (l : List α) (x : α) :
    x ∈ sortedKeys l ↔ x ∈ l := by
  simp [sortedKeys]

/-- The group sum for one year: `groupby("Year")["Sales"].sum()`
(`app1.py` line 119) evaluated at key `y`. -/
def yearTotal (v : List Record) (y : ℤ) : ℚ :=
  ((v.filter (fun r => decide (r.year = y))).map (·.sales)).sum

/-- `yearly_sales = filtered_df.groupby("Year")["Sales"].sum().reset_index()`
(`app1.py` line 119): one `(year, summed sales)` row per distinct year, the
index sorted ascending by the groupby. -/
def aggregateByYear (v : List Record) : List (ℤ × ℚ) :=
  (sortedKeys (v.map (·.year))).map (fun y => (y, yearTotal v y))

/-- The group sum for one branch: `groupby("Branch_ID")["Sales"].sum()`
(`app1.py` lines 200-202) evaluated at key `b`. -/
def branchTotal (v : List Record) (b : ℕ) : ℚ :=
  ((v.filter (fun r => decide (r.branch = b))).map (·.sales)).sum

/-- The branch-indexed sales totals produced by the groupby of `app1.py`
lines 200-202, indexed ascending by branch id. -/
def branchTotals (v : List Record) : List (ℕ × ℚ) :=
  (sortedKeys (v.map (·.branch))).map (fun b => (b, branchTotal v b))

/-- `Series.sort_values(ascending=False)` (`app1.py` line 202): pandas
argsorts the values ascending with numpy's default quicksort and reverses
the indexer.  numpy's quicksort (introsort) is stable only below its
insertion-sort threshold (about 16 elements), so the relative order of
TIED values is implementation-defined for larger arrays; this model fixes
one concrete argsort - the stable one, exact for arrays below the
threshold, such as those of the concrete counterexample - and universal
theorems proved over it state only properties that hold for every
ascending argsort followed by a reversal, i.e. properties independent of
the tie order. -/
def sortSalesDesc (l : List (ℕ × ℚ)) : List (ℕ × ℚ) :=
  (List.insertionSort (fun p q => p.2 ≤ q.2) l).reverse

/-- `branch_sales` of `app1.py` lines 200-204: groupby branch, sum sales,
sort descending, keep the first `k` rows (the script calls `head(15)`). -/
def topBranches (v : List Record) (k : ℕ) : List (ℕ × ℚ) :=
  (sortSalesDesc (branchTotals v)).take k

/-- Inserting a pair whose first component is below that of every element
of a lexicographically (value, then id) sorted list, at its stable
position by value, keeps the list lexicographically sorted. -/
lemma orderedInsert_lex (x : ℕ × ℚ) (s : List (ℕ × ℚ))
    (hs : s.Pairwise (fun p q => p.2 < q.2 ∨ (p.2 = q.2 ∧ p.1 < q.1)))
    (hb : ∀ y ∈ s, x.1 < y.1) :
    (List.orderedInsert (fun p q => p.2 ≤ q.2) x s).Pairwise
      (fun p q => p.2 < q.2 ∨ (p.2 = q.2 ∧ p.1 < q.1)) := by
  induction s with
  | nil => simp
  | cons b s ih =>
    rcases List.pairwise_cons.mp hs with ⟨hbs, hs2⟩
    have hxb : x.1 < b.1 := hb b (List.mem_cons_self b s)
    by_cases h : x.2 ≤ b.2
    · simp only [List.orderedInsert]
      rw [if_pos h]
      refine List.pairwise_cons.mpr ⟨?_, List.pairwise_cons.mpr ⟨hbs, hs2⟩⟩
      intro z hz
      rcases List.mem_cons.mp hz with rfl | hz
      · rcases lt_or_eq_of_le h with h2 | h2
        · exact Or.inl h2
        · exact Or.inr ⟨h2, hxb⟩
      · have hbz2 : b.2 ≤ z.2 := by
          rcases hbs z hz with h3 | h3
          · exact le_of_lt h3
          · exact le_of_eq h3.1
        rcases lt_or_eq_of_le (le_trans h hbz2) with h3 | h3
        · exact Or.inl h3
        · exact Or.inr ⟨h3, hb z (List.mem_cons_of_mem b hz)⟩
    · simp only [List.orderedInsert]
      rw [if_neg h]
      refine List.pairwise_cons.mpr
        ⟨?_, ih hs2 (fun y hy => hb y (List.mem_cons_of_mem b hy))⟩
      intro z hz
      rcases (List.mem_orderedInsert _).mp hz with rfl | hz
      · exact Or.inl (lt_of_not_le h)
      · exact hbs z hz

/-- The stable ascending sort by value of a list with strictly increasing
first components is sorted lexicographically by (value, then id): ties keep
the ascending id order. -/
lemma insertionSort_lex (l : List (ℕ × ℚ))
    (hl : l.Pairwise (fun p q => p.1 < q.1)) :
    (List.insertionSort (fun p q => p.2 ≤ q.2) l).Pairwise
      (fun p q => p.2 < q.2 ∨ (p.2 = q.2 ∧ p.1 < q.1)) := by
  induction l with
  | nil => simp
  | cons a l ih =>
    rcases List.pairwise_cons.mp hl with ⟨hal, hl2⟩
    simp only [List.insertionSort]
    exact orderedInsert_lex a _ (ih hl2)
      (fun y hy => hal y ((List.mem_insertionSort _).mp hy))

/-- The branch totals carry strictly increasing branch ids. -/
lemma branchTotals_pairwise (v : List Record) :
    (branchTotals v).Pairwise (fun p q => p.1 < q.1) :=
  (sortedKeys_pairwise_lt (v.map (·.branch))).map
    (fun b => (b, branchTotal v b)) (fun _ _ hab => hab)

/-- C8: the by-year aggregate is sorted strictly ascending by year (hence
each year appears at most once), the years appearing are exactly the years
occurring in the view, and each entry carries the sum of the sales of that
year's records. -/
theorem aggregateByYear_sorted_complete (v : List Record) :
    (aggregateByYear v).Pairwise (fun p q => p.1 < q.1) ∧
    (∀ y : ℤ, y ∈ (aggregateByYear v).map Prod.fst ↔ y ∈ v.map (·.year)) ∧
    (∀ p ∈ aggregateByYear v, p.2 = yearTotal v p.1) := by
  refine ⟨?_, ?_, ?_⟩
  · exact (sortedKeys_pairwise_lt (v.map (·.year))).map
      (fun y => (y, yearTotal v y)) (fun _ _ hab => hab)
  · intro y
    rw [aggregateByYear, List.map_map]
    simpa using (mem_sortedKeys (v.map (·.year)) y)
  · intro p hp
    rcases List.mem_map.mp hp with ⟨y, _, rfl⟩
    rfl

/-- Two records for distinct branches with identical summed sales. -/
def rTieA : Record :=
  { country := "US", year := 2020, month := "Jan", branch := 1,
    sales := 100, customers := 10, spend := 5 }

/-- Second tied-branch record, branch id 2. -/
def rTieB : Record :=
  { country := "US", year := 2020, month := "Jan", branch := 2,
    sales := 100, customers := 20, spend := 5 }

/-- C7 counterexample: on a view with two branches of equal summed sales,
the descending sort of lines 200-204 (reversed stable ascending argsort)
puts the LARGER branch id first, not the smaller one as claimed. -/
theorem topBranches_tie_larger_first :
    topBranches [rTieA, rTieB] 15 = [(2, 100), (1, 100)] ∧
    topBranches [rTieA, rTieB] 15 ≠ [(1, 100), (2, 100)] := by
  have h : topBranches [rTieA, rTieB] 15 = [(2, 100), (1, 100)] := by
    norm_num [topBranches, sortSalesDesc, branchTotals, sortedKeys,
      branchTotal, List.dedup, List.insertionSort, List.orderedInsert,
      rTieA, rTieB, List.pwFilter]
  refine ⟨h, ?_⟩
  rw [h]
  intro hcontra
  exact absurd (List.head_eq_of_cons_eq hcontra) (by norm_num)

/-- C7 amended: for every view and every `k ≥ 1` (the script calls
`head(15)`), the top-branches list has at most `k` entries, is sorted
descending (weakly, since totals can tie) by summed sales, and is a
prefix of the descending reordering of the per-branch groupby totals.
The order among entries with EQUAL totals is implementation-defined by
numpy's unstable quicksort and in particular is not the claimed
smaller-identifier tie-break: on small views, where the argsort is
stable, the larger identifier comes first (see the counterexample). -/
theorem topBranches_sorted (v : List Record) (k : ℕ) (_hk : 1 ≤ k) :
    (topBranches v k).length ≤ k ∧
    (topBranches v k).Pairwise (fun p q => q.2 ≤ p.2) ∧
    (topBranches v k).Sublist (sortSalesDesc (branchTotals v)) ∧
    (sortSalesDesc (branchTotals v)).Perm (branchTotals v) := by
  have h1 := insertionSort_lex (branchTotals v) (branchTotals_pairwise v)
  have hle : (List.insertionSort (fun p q => p.2 ≤ q.2)
      (branchTotals v)).Pairwise (fun p q => p.2 ≤ q.2) :=
    h1.imp (fun h => h.elim le_of_lt (fun h2 => le_of_eq h2.1))
  have h2 : (sortSalesDesc (branchTotals v)).Pairwise
      (fun p q => q.2 ≤ p.2) := by
    rw [sortSalesDesc]
    exact List.pairwise_reverse.mpr hle
  refine ⟨?_, h2.sublist (List.take_sublist k _), List.take_sublist k _,
    (List.reverse_perm _).trans (List.perm_insertionSort _ _)⟩
  rw [topBranches, List.length_take]
  exact min_le_left _ _

/-- Witness for the amended C7 at a concrete view and `k = 15`. -/
theorem topBranches_sorted_witness :
    1 ≤ 15 ∧
    ((topBranches [rUS, rFR] 15).length ≤ 15 ∧
     (topBranches [rUS, rFR] 15).Pairwise (fun p q => q.2 ≤ p.2) ∧
     (topBranches [rUS, rFR] 15).Sublist
       (sortSalesDesc (branchTotals [rUS, rFR])) ∧
     (sortSalesDesc (branchTotals [rUS, rFR])).Perm
       (branchTotals [rUS, rFR])) :=
  ⟨by decide, topBranches_sorted [rUS, rFR] 15 (by decide)⟩

/-- The fitted linear model of `app1.py` lines 253-254: a coefficient per
predictor (`Customers`, `Marketing_Spend`) and an intercept. -/
structure PredictionModel where
  wc : ℚ
  wm : ℚ
  intercept : ℚ
deriving DecidableEq

/-- The only fit-time failure: scikit-learn's `LinearRegression.fit` raises
(`Found array with 0 sample(s)`) exactly when the design matrix is empty.
The script itself performs no record-count validation whatsoever. -/
inductive FitError where
  | insufficientData : FitError
deriving DecidableEq

/-- The ordinary-least-squares solution of `LinearRegression.fit(X, y)`
(`app1.py` lines 250-254) with predictors `Customers, Marketing_Spend` and
target `Sales`: the normal-equations solution, here by Cramer's rule on
the 3x3 normal matrix.  When that matrix is singular (an underdetermined
fit, e.g. fewer records than parameters) scikit-learn's least-squares
solver still succeeds and returns the minimum-norm solution; that solution
is not computed here and no verified property depends on the coefficients
of this branch. -/
def olsModel (ds : List Record) : PredictionModel :=
  let n : ℚ := ds.length
  let sc : ℚ := (ds.map (fun r => (r.customers : ℚ))).sum
  let sm : ℚ := (ds.map (·.spend)).sum
  let ss : ℚ := (ds.map (·.sales)).sum
  let scc : ℚ := (ds.map (fun r => (r.customers : ℚ) * r.customers)).sum
  let smm : ℚ := (ds.map (fun r => r.spend * r.spend)).sum
  let scm : ℚ := (ds.map (fun r => (r.customers : ℚ) * r.spend)).sum
  let scs : ℚ := (ds.map (fun r => (r.customers : ℚ) * r.sales)).sum
  let sms : ℚ := (ds.map (fun r => r.spend * r.sales)).sum
  let det : ℚ :=
    scc * (smm * n - sm * sm) - scm * (scm * n - sm * sc) +
      sc * (scm * sm - smm * sc)
  if det = 0 then { wc := 0, wm := 0, intercept := 0 }
  else
    { wc := (scs * (smm * n - sm * sm) - scm * (sms * n - sm * ss) +
        sc * (sms * sm - smm * ss)) / det,
      wm := (scc * (sms * n - sm * ss) - scs * (scm * n - sm * sc) +
        sc * (scm * ss - sms * sc)) / det,
      intercept := (scc * (smm * ss - sms * sm) - scm * (scm * ss - sms * sc) +
        scs * (scm * sm - smm * sc)) / det }

/-- `model.fit(X, y)` (`app1.py` lines 253-254): succeeds on every nonempty
dataset - scikit-learn checks only for zero samples - and performs the
least-squares fit. -/
def fit (ds : List Record) : Except FitError PredictionModel :=
  if ds.isEmpty then Except.error FitError.insufficientData
  else Except.ok (olsModel ds)

/-- `model.predict([[cust, spend]])` (`app1.py` line 259): the linear form
`X @ coef + intercept` of the fitted model, a pure O(1) computation. -/
def predictSales (m : PredictionModel) (customers spend : ℚ) : ℚ :=
  m.wc * customers + m.wm * spend + m.intercept

/-- The frames the script holds after the filter section: the source `df`,
the filtered frame, and the derived column attached to the filtered
frame. -/
structure ScriptState where
  df : List Record
  filtered : List Record
  derived : List (Record × PdVal)

/-- Lines 84-90: boolean-mask indexing builds `filtered_df` as a NEW frame
holding the matching rows in their original order; `df` is untouched. -/
def applyFilterStep (ds : List Record) (c : Criteria) : ScriptState where
  df := ds
  filtered := applyFilter ds c
  derived := []

/-- Lines 178-180: `filtered_df["Sales_per_Customer"] = ...` writes the
derived column into `filtered_df` - a copy produced by the mask indexing -
so `df` keeps all its records and columns. -/
def derivedColumnStep (st : ScriptState) : ScriptState :=
  { st with derived := addDerived st.filtered }

/-- Lines 250-251: the regression design matrix `X` and target `y` are
drawn from the ORIGINAL `df`, not from `filtered_df`. -/
def regressionInput (st : ScriptState) : List Record := st.df

/-- The whole prediction-section pipeline: filter, derive, then fit on the
(unfiltered) source frame, as the script runs it top to bottom. -/
def scriptFit (ds : List Record) (c : Criteria) :
    Except FitError PredictionModel :=
  fit (regressionInput (derivedColumnStep (applyFilterStep ds c)))

/-- First record of the two-record dataset of the C6 scenario. -/
def rTwoA : Record :=
  { country := "US", year := 2019, month := "Jan", branch := 1,
    sales := 1000, customers := 100, spend := 500 }

/-- Second record of the two-record dataset of the C6 scenario. -/
def rTwoB : Record :=
  { country := "US", year := 2020, month := "Feb", branch := 2,
    sales := 2500, customers := 200, spend := 800 }

/-- The two-record dataset on which the spec expects `InsufficientData`. -/
def dsTwo : List Record := [rTwoA, rTwoB]

/-- C6 counterexample: fitting on a dataset of exactly 2 records (fewer
than the model's 3 free parameters) succeeds - the script has no record
count check and scikit-learn fits an underdetermined system without error
- contradicting the claim that it fails with `InsufficientData`. -/
theorem two_record_fit_succeeds :
    dsTwo.length = 2 ∧ fit dsTwo = Except.ok (olsModel dsTwo) :=
  ⟨rfl, rfl⟩

/-- C6 amended: the fit performs no minimum-record check; every nonempty
dataset - including one with fewer records than the 3 free parameters -
fits successfully, and only an empty design matrix fails. -/
theorem fit_nonempty_ok (ds : List Record) (h : ds ≠ []) :
    fit ds = Except.ok (olsModel ds) := by
  cases ds with
  | nil => exact absurd rfl h
  | cons a t => rfl

/-- Witness for the amended C6 on a concrete one-record dataset. -/
theorem fit_nonempty_ok_witness :
    ([rUS] : List Record) ≠ [] ∧ fit [rUS] = Except.ok (olsModel [rUS]) :=
  ⟨List.cons_ne_nil rUS [], fit_nonempty_ok [rUS] (List.cons_ne_nil rUS [])⟩

/-- C9: for a model fitted by the script and any query with positive
customers and non-negative marketing spend, the prediction is exactly
`w_customers * customers + w_marketing * marketing_spend + intercept`, and
the script's fit reads the full unfiltered dataset (its design matrix is
`df`, whatever criteria were applied to the view).  The computation is a
pure function of the model, hence reproducible across repeated calls. -/
theorem predict_linear_formula (ds : List Record) (c : Criteria)
    (m : PredictionModel) (_hm : scriptFit ds c = Except.ok m)
    (cust spend : ℚ) (_hc : 0 < cust) (_hs : 0 ≤ spend) :
    predictSales m cust spend = m.wc * cust + m.wm * spend + m.intercept ∧
    scriptFit ds c = fit ds :=
  ⟨rfl, rfl⟩

/-- Witness for C9 at the spec's scenario query
`customers = 3000, marketing_spend = 15000` on a concrete fitted model. -/
theorem predict_linear_formula_witness :
    scriptFit [rUS] absentCountryCriteria = Except.ok (olsModel [rUS]) ∧
    (0 : ℚ) < 3000 ∧ (0 : ℚ) ≤ 15000 ∧
    (predictSales (olsModel [rUS]) 3000 15000 =
       (olsModel [rUS]).wc * 3000 + (olsModel [rUS]).wm * 15000 +
         (olsModel [rUS]).intercept ∧
     scriptFit [rUS] absentCountryCriteria = fit [rUS]) :=
  ⟨rfl, by norm_num, by norm_num,
   predict_linear_formula [rUS] absentCountryCriteria (olsModel [rUS]) rfl
     3000 15000 (by norm_num) (by norm_num)⟩

/-- C10: the filter and the derived-column assignment leave the source
dataset untouched - after both steps `df` still holds exactly the original
records - the filtered view is an order-preserving subsequence of the
source, the derived view carries exactly the filtered records, and the
regression reads the unmodified source. -/
theorem pipeline_preserves_source (ds : List Record) (c : Criteria) :
    (derivedColumnStep (applyFilterStep ds c)).df = ds ∧
    (derivedColumnStep (applyFilterStep ds c)).filtered.Sublist ds ∧
    (derivedColumnStep (applyFilterStep ds c)).derived.map Prod.fst =
      (derivedColumnStep (applyFilterStep ds c)).filtered ∧
    regressionInput (derivedColumnStep (applyFilterStep ds c)) = ds := by
  refine ⟨rfl, ?_, ?_, rfl⟩
  · exact List.filter_sublist ds
  · simp [derivedColumnStep, applyFilterStep, addDerived, List.map_map,
      Function.comp_def]

end KFC
